import Mathlib

/-!
Verification of the Victorex binary-option signal core: a shallow embedding
of the asset rotator, market analyzer, signal fusion / confidence scorer and
signal validator, together with theorems settling the specification claims.
All numeric quantities are modelled as rationals; dictionaries keyed by
strings are modelled as association lists or functions; injected randomness
(uniform draws) is passed as explicit parameters.
-/

namespace Victorex

/-- Directional signal of an indicator, trend, pattern or fused decision. -/
inductive Direction where
  | BUY
  | SELL
  | NEUTRAL
deriving DecidableEq, Repr

/-- Sentiment / pattern polarity category. -/
inductive Polarity where
  | BULLISH
  | BEARISH
  | NEUTRAL
deriving DecidableEq, Repr

/-- One technical-indicator reading: derived signal and normalized strength
(`market_analyzer.py` / `market_data_fetcher.py` store more raw fields, but
only these two are consumed downstream by trend analysis, fusion and
validation). -/
structure IndicatorReading where
  signal : Direction
  strength : ℚ
deriving DecidableEq, Repr

/-- Trend analysis result (`MarketAnalyzer._analyze_trend`). -/
structure TrendReading where
  signal : Direction
  strength : ℚ
  consensus : ℚ
  agreement_count : ℕ
deriving DecidableEq, Repr

/-- Market sentiment result. -/
structure SentimentReading where
  value : ℚ
  category : Polarity
  confidence : ℚ
deriving DecidableEq, Repr

/-- Chart-pattern detection result; `pattern = none` means no pattern
detected. -/
structure PatternReading where
  pattern : Option String
  ptype : Polarity
  confidence : ℚ
  signal : Direction
deriving DecidableEq, Repr

/-- Confidence factors (`MarketAnalyzer._calculate_confidence_factors`). -/
structure ConfidenceFactors where
  indicator_agreement : ℚ
  pattern_confirmation : ℚ
  trend_strength : ℚ
  signal_consensus : ℚ
  overall_confidence : ℚ
deriving DecidableEq, Repr

/-- An analysis snapshot (`MarketAnalyzer.analyze_asset` result); indicator
map modelled as an association list in insertion order. -/
structure Analysis where
  indicators : List (String × IndicatorReading)
  patterns : PatternReading
  trend : TrendReading
  sentiment : SentimentReading
  confidence_factors : ConfidenceFactors
  data_source : String
deriving DecidableEq, Repr

/-- Configured minimum confidence (`config/settings.py`). -/
def MINIMUM_CONFIDENCE : ℚ := 65

/-- Vote collection of `SignalGenerator._determine_signal_direction`
(lines 113-134): trend vote weighted 0.4 * strength, sentiment vote
(BULLISH mapped to BUY, any other non-NEUTRAL category to SELL) weighted
0.35 * confidence, pattern vote weighted 0.25 * confidence, each appended
only when non-NEUTRAL.  Decimal weights are written as exact fractions. -/
def collect_votes (trend : TrendReading) (sentiment : SentimentReading)
    (patterns : PatternReading) : List (Direction × ℚ) :=
  (if trend.signal ≠ Direction.NEUTRAL then [(trend.signal, (2/5 : ℚ) * trend.strength)] else []) ++
  (if sentiment.category ≠ Polarity.NEUTRAL then
    [((if sentiment.category = Polarity.BULLISH then Direction.BUY else Direction.SELL),
      (7/20 : ℚ) * sentiment.confidence)]
   else []) ++
  (if patterns.signal ≠ Direction.NEUTRAL then [(patterns.signal, (1/4 : ℚ) * patterns.confidence)] else [])

/-- Fusion direction decision, translated from
`SignalGenerator._determine_signal_direction`: collect the weighted votes,
sum the weights per side, then apply the source's decision ladder. -/
def determine_signal_direction (trend : TrendReading) (sentiment : SentimentReading)
    (patterns : PatternReading) : Direction :=
  let votes := collect_votes trend sentiment patterns
  if votes = [] then Direction.NEUTRAL
  else
    let buy_weight : ℚ := ((votes.filter (fun v => v.1 = Direction.BUY)).map (fun v => v.2)).sum
    let sell_weight : ℚ := ((votes.filter (fun v => v.1 = Direction.SELL)).map (fun v => v.2)).sum
    if buy_weight > sell_weight + (1/20 : ℚ) then Direction.BUY
    else if sell_weight > buy_weight + (1/20 : ℚ) then Direction.SELL
    else if max buy_weight sell_weight > (1/5 : ℚ) then
      (if buy_weight > sell_weight then Direction.BUY else Direction.SELL)
    else if buy_weight > 0 ∨ sell_weight > 0 then
      (if buy_weight ≥ sell_weight then Direction.BUY else Direction.SELL)
    else Direction.NEUTRAL

/-- Sentiment category mapped to a direction, as in
`SignalGenerator._calculate_signal_confidence`. -/
def sentiment_signal (s : SentimentReading) : Direction :=
  if s.category = Polarity.BULLISH then Direction.BUY
  else if s.category = Polarity.BEARISH then Direction.SELL
  else Direction.NEUTRAL

/-- Confidence scoring, translated from
`SignalGenerator._calculate_signal_confidence` (returns a percentage). -/
def calculate_signal_confidence (a : Analysis) (signal_direction : Direction) : ℚ :=
  let base_confidence := a.confidence_factors.overall_confidence
  let agreeing_sources : ℕ :=
    (if a.trend.signal = signal_direction then 1 else 0) +
    (if sentiment_signal a.sentiment = signal_direction then 1 else 0) +
    (if a.patterns.signal = signal_direction then 1 else 0)
  let total_sources : ℕ :=
    (if a.trend.signal ≠ Direction.NEUTRAL then 1 else 0) +
    (if sentiment_signal a.sentiment ≠ Direction.NEUTRAL then 1 else 0) +
    (if a.patterns.signal ≠ Direction.NEUTRAL then 1 else 0)
  let agreement_bonus : ℚ :=
    if 0 < total_sources then ((agreeing_sources : ℚ) / (total_sources : ℚ) - (1/2 : ℚ)) * (1/5 : ℚ) else 0
  let final_confidence := min (base_confidence + agreement_bonus) 1
  let boosted := if final_confidence > (2/5 : ℚ) then min (final_confidence + (1/5 : ℚ)) 1 else final_confidence
  boosted * 100

/-- A finalized signal (presentation-only fields such as reasoning text and
expiry timestamps are omitted; they are not consumed by any decision). -/
structure Signal where
  asset : String
  category : String
  direction : Direction
  confidence : ℚ
  analysis : Analysis
deriving DecidableEq, Repr

/-- Signal construction, translated from
`SignalGenerator._create_signal_from_analysis`: no signal object when the
fused direction is NEUTRAL or the confidence is below the minimum. -/
def create_signal_from_analysis (asset category : String) (a : Analysis) : Option Signal :=
  let dir := determine_signal_direction a.trend a.sentiment a.patterns
  if dir = Direction.NEUTRAL then none
  else
    let conf := calculate_signal_confidence a dir
    if conf < MINIMUM_CONFIDENCE then none
    else some { asset := asset, category := category, direction := dir, confidence := conf, analysis := a }

/-- Total BUY weight as the specification describes it: an arithmetic sum of
the three conditional contributions. -/
def spec_buy_weight (trend : TrendReading) (sentiment : SentimentReading)
    (patterns : PatternReading) : ℚ :=
  (if trend.signal = Direction.BUY then (2/5 : ℚ) * trend.strength else 0) +
  (if sentiment.category = Polarity.BULLISH then (7/20 : ℚ) * sentiment.confidence else 0) +
  (if patterns.signal = Direction.BUY then (1/4 : ℚ) * patterns.confidence else 0)

/-- Total SELL weight as the specification describes it. -/
def spec_sell_weight (trend : TrendReading) (sentiment : SentimentReading)
    (patterns : PatternReading) : ℚ :=
  (if trend.signal = Direction.SELL then (2/5 : ℚ) * trend.strength else 0) +
  (if sentiment.category = Polarity.BEARISH then (7/20 : ℚ) * sentiment.confidence else 0) +
  (if patterns.signal = Direction.SELL then (1/4 : ℚ) * patterns.confidence else 0)

/-- The direction rule exactly as the claim words it: when neither side
exceeds the other by more than 0.05, the branch for a larger side exceeding
0.2 applies only when one side actually is larger; otherwise a nonzero tie
falls to the next branch, which breaks ties toward BUY. -/
def claim_direction (trend : TrendReading) (sentiment : SentimentReading)
    (patterns : PatternReading) : Direction :=
  let bw := spec_buy_weight trend sentiment patterns
  let sw := spec_sell_weight trend sentiment patterns
  if trend.signal = Direction.NEUTRAL ∧ sentiment.category = Polarity.NEUTRAL ∧
      patterns.signal = Direction.NEUTRAL then Direction.NEUTRAL
  else if bw > sw + (1/20 : ℚ) then Direction.BUY
  else if sw > bw + (1/20 : ℚ) then Direction.SELL
  else if max bw sw > (1/5 : ℚ) ∧ bw ≠ sw then
    (if bw > sw then Direction.BUY else Direction.SELL)
  else if bw > 0 ∨ sw > 0 then
    (if bw ≥ sw then Direction.BUY else Direction.SELL)
  else Direction.NEUTRAL

/-- The claim's rule amended on one point: when the two summed weights are
exactly tied above the 0.2 floor, the result is SELL (not BUY). -/
def amended_direction (trend : TrendReading) (sentiment : SentimentReading)
    (patterns : PatternReading) : Direction :=
  let bw := spec_buy_weight trend sentiment patterns
  let sw := spec_sell_weight trend sentiment patterns
  if trend.signal = Direction.NEUTRAL ∧ sentiment.category = Polarity.NEUTRAL ∧
      patterns.signal = Direction.NEUTRAL then Direction.NEUTRAL
  else if bw > sw + (1/20 : ℚ) then Direction.BUY
  else if sw > bw + (1/20 : ℚ) then Direction.SELL
  else if max bw sw > (1/5 : ℚ) then
    (if bw > sw then Direction.BUY else Direction.SELL)
  else if bw > 0 ∨ sw > 0 then
    (if bw ≥ sw then Direction.BUY else Direction.SELL)
  else Direction.NEUTRAL

theorem collect_votes_eq_nil_iff (t : TrendReading) (s : SentimentReading) (p : PatternReading) :
    (collect_votes t s p = []) ↔
      (t.signal = Direction.NEUTRAL ∧ s.category = Polarity.NEUTRAL ∧
       p.signal = Direction.NEUTRAL) := by
  obtain ⟨tsig, tstr, tcons, tagc⟩ := t
  obtain ⟨sval, scat, sconf⟩ := s
  obtain ⟨pn, pt, pc, psig⟩ := p
  cases tsig <;> cases scat <;> cases psig <;> simp [collect_votes]

theorem collect_votes_buy_sum (t : TrendReading) (s : SentimentReading) (p : PatternReading) :
    (((collect_votes t s p).filter (fun v => v.1 = Direction.BUY)).map (fun v => v.2)).sum =
      spec_buy_weight t s p := by
  obtain ⟨tsig, tstr, tcons, tagc⟩ := t
  obtain ⟨sval, scat, sconf⟩ := s
  obtain ⟨pn, pt, pc, psig⟩ := p
  cases tsig <;> cases scat <;> cases psig <;>
    simp [collect_votes, spec_buy_weight] <;> ring

theorem collect_votes_sell_sum (t : TrendReading) (s : SentimentReading) (p : PatternReading) :
    (((collect_votes t s p).filter (fun v => v.1 = Direction.SELL)).map (fun v => v.2)).sum =
      spec_sell_weight t s p := by
  obtain ⟨tsig, tstr, tcons, tagc⟩ := t
  obtain ⟨sval, scat, sconf⟩ := s
  obtain ⟨pn, pt, pc, psig⟩ := p
  cases tsig <;> cases scat <;> cases psig <;>
    simp [collect_votes, spec_sell_weight] <;> ring

/-- Claim C1 counterexample: trend votes BUY with strength 7/8 (weight
0.35), sentiment is BEARISH with confidence 1 (weight 0.35); both sides tie
at 0.35, above the 0.2 floor.  The code returns SELL, the claim's rule
returns BUY. -/
theorem c1_counterexample :
    determine_signal_direction
        { signal := Direction.BUY, strength := 7/8, consensus := 0, agreement_count := 0 }
        { value := 0, category := Polarity.BEARISH, confidence := 1 }
        { pattern := none, ptype := Polarity.NEUTRAL, confidence := 1/2, signal := Direction.NEUTRAL }
      = Direction.SELL ∧
    claim_direction
        { signal := Direction.BUY, strength := 7/8, consensus := 0, agreement_count := 0 }
        { value := 0, category := Polarity.BEARISH, confidence := 1 }
        { pattern := none, ptype := Polarity.NEUTRAL, confidence := 1/2, signal := Direction.NEUTRAL }
      = Direction.BUY := by
  constructor
  · simp [determine_signal_direction, collect_votes]
    norm_num
  · simp [claim_direction, spec_buy_weight, spec_sell_weight]
    norm_num

/-- Claim C1 (amended): the fusion decision agrees everywhere with the
spec's ordered rule once ties above the 0.2 floor resolve to SELL, and a
NEUTRAL decision never produces a Signal object. -/
theorem c1_direction_rule :
    (∀ (t : TrendReading) (s : SentimentReading) (p : PatternReading),
      determine_signal_direction t s p = amended_direction t s p) ∧
    (∀ (asset category : String) (a : Analysis),
      determine_signal_direction a.trend a.sentiment a.patterns = Direction.NEUTRAL →
      create_signal_from_analysis asset category a = none) := by
  constructor
  · intro t s p
    simp only [determine_signal_direction, amended_direction, collect_votes_buy_sum,
      collect_votes_sell_sum, collect_votes_eq_nil_iff]
  · intro asset category a h
    unfold create_signal_from_analysis
    rw [h]
    simp

/-- Witness for the amended C1 theorem at a concrete all-NEUTRAL analysis:
the decision is NEUTRAL and no signal is created. -/
theorem c1_direction_rule_witness :
    create_signal_from_analysis "EUR/USD" "currency_pairs"
      { indicators := [],
        patterns := { pattern := none, ptype := Polarity.NEUTRAL, confidence := 1/2,
                      signal := Direction.NEUTRAL },
        trend := { signal := Direction.NEUTRAL, strength := 0, consensus := 0,
                   agreement_count := 0 },
        sentiment := { value := 0, category := Polarity.NEUTRAL, confidence := 1/2 },
        confidence_factors := { indicator_agreement := 0, pattern_confirmation := 0,
                                trend_strength := 0, signal_consensus := 0,
                                overall_confidence := 0 },
        data_source := "simulated_data" } = none :=
  c1_direction_rule.2 "EUR/USD" "currency_pairs" _ (by decide)

/-- Confidence factor computation, translated from
`MarketAnalyzer._calculate_confidence_factors`: agreement share of the
majority indicator side, pattern confirmation only when a pattern was
detected, trend strength and consensus, blended with weights
0.2 / 0.4 / 0.3 / 0.1 and capped at 1. -/
def calculate_confidence_factors (indicators : List (String × IndicatorReading))
    (patterns : PatternReading) (trend : TrendReading) : ConfidenceFactors :=
  let buy_signals := (indicators.filter (fun p => p.2.signal = Direction.BUY)).length
  let sell_signals := (indicators.filter (fun p => p.2.signal = Direction.SELL)).length
  let total_indicators := indicators.length
  let indicator_agreement : ℚ := ((max buy_signals sell_signals : ℕ) : ℚ) / (total_indicators : ℚ)
  let pattern_confirmation : ℚ := if patterns.pattern.isSome then patterns.confidence else 0
  let overall : ℚ := indicator_agreement * (1/5 : ℚ) + pattern_confirmation * (2/5 : ℚ) +
    trend.strength * (3/10 : ℚ) + trend.consensus * (1/10 : ℚ)
  { indicator_agreement := indicator_agreement,
    pattern_confirmation := pattern_confirmation,
    trend_strength := trend.strength,
    signal_consensus := trend.consensus,
    overall_confidence := min overall 1 }

/-- The confidence formula exactly as claim C2 words it: the agreement-bonus
step is clamped to the interval from 0 to 1 on both sides. -/
def claim_confidence (a : Analysis) (signal_direction : Direction) : ℚ :=
  let base := a.confidence_factors.overall_confidence
  let agreeing_sources : ℕ :=
    (if a.trend.signal = signal_direction then 1 else 0) +
    (if sentiment_signal a.sentiment = signal_direction then 1 else 0) +
    (if a.patterns.signal = signal_direction then 1 else 0)
  let total_sources : ℕ :=
    (if a.trend.signal ≠ Direction.NEUTRAL then 1 else 0) +
    (if sentiment_signal a.sentiment ≠ Direction.NEUTRAL then 1 else 0) +
    (if a.patterns.signal ≠ Direction.NEUTRAL then 1 else 0)
  let bonus : ℚ :=
    if 0 < total_sources then ((agreeing_sources : ℚ) / (total_sources : ℚ) - (1/2 : ℚ)) * (1/5 : ℚ) else 0
  let clamped := max (min (base + bonus) 1) 0
  let boosted := if clamped > (2/5 : ℚ) then min (clamped + (1/5 : ℚ)) 1 else clamped
  boosted * 100

/-- The claim's confidence formula amended on one point: the agreement-bonus
step is only capped above at 1; there is no lower clamp at 0. -/
def amended_confidence (a : Analysis) (signal_direction : Direction) : ℚ :=
  let agreeing_sources : ℕ :=
    (if a.trend.signal = signal_direction then 1 else 0) +
    (if sentiment_signal a.sentiment = signal_direction then 1 else 0) +
    (if a.patterns.signal = signal_direction then 1 else 0)
  let total_sources : ℕ :=
    (if a.trend.signal ≠ Direction.NEUTRAL then 1 else 0) +
    (if sentiment_signal a.sentiment ≠ Direction.NEUTRAL then 1 else 0) +
    (if a.patterns.signal ≠ Direction.NEUTRAL then 1 else 0)
  let bonus : ℚ :=
    if 0 < total_sources then ((agreeing_sources : ℚ) / (total_sources : ℚ) - (1/2 : ℚ)) * (1/5 : ℚ) else 0
  let x := min (a.confidence_factors.overall_confidence + bonus) 1
  100 * (if (2/5 : ℚ) < x then min (x + (1/5 : ℚ)) 1 else x)

/-- A concrete analysis on which the code's confidence goes negative: all
confidence factors are zero (coherently with its own indicator list), the
fused direction is SELL (backed by the sentiment vote alone), and two of the
three non-NEUTRAL sources disagree with it. -/
def c2_analysis : Analysis :=
  { indicators := [("RSI", { signal := Direction.NEUTRAL, strength := 0 }),
                   ("STOCHASTIC", { signal := Direction.NEUTRAL, strength := 0 })],
    patterns := { pattern := some "hammer", ptype := Polarity.BULLISH, confidence := 0,
                  signal := Direction.BUY },
    trend := { signal := Direction.BUY, strength := 0, consensus := 0, agreement_count := 0 },
    sentiment := { value := 0, category := Polarity.BEARISH, confidence := 1/5 },
    confidence_factors := { indicator_agreement := 0, pattern_confirmation := 0,
                            trend_strength := 0, signal_consensus := 0, overall_confidence := 0 },
    data_source := "real_market_data" }

/-- Claim C2 counterexample: on `c2_analysis` (whose stored confidence
factors coincide with `calculate_confidence_factors` on its own fields and
whose fused direction is SELL) the code emits the confidence -10/3, while
the claim's doubly-clamped formula yields 0 — so the emitted confidence is
neither equal to the claim's formula nor inside the 0..100 range. -/
theorem c2_counterexample :
    calculate_confidence_factors c2_analysis.indicators c2_analysis.patterns c2_analysis.trend
        = c2_analysis.confidence_factors ∧
    determine_signal_direction c2_analysis.trend c2_analysis.sentiment c2_analysis.patterns
        = Direction.SELL ∧
    calculate_signal_confidence c2_analysis Direction.SELL = -10/3 ∧
    claim_confidence c2_analysis Direction.SELL = 0 := by
  refine ⟨?_, ?_, ?_, ?_⟩
  · simp [calculate_confidence_factors, c2_analysis]
  · simp [determine_signal_direction, collect_votes, c2_analysis]
    norm_num
  · simp [calculate_signal_confidence, sentiment_signal, c2_analysis]
    norm_num
  · simp [claim_confidence, sentiment_signal, c2_analysis]
    norm_num

/-- Claim C2 (amended): the blended overall confidence is the weighted sum
capped at 1 and lies in the 0..1 range (for a nonempty indicator list and
nonnegative inputs), and the emitted confidence equals the claim's formula
with the agreement-bonus step capped above at 1 only (no lower clamp),
boosted by a flat 0.2 above the 0.4 threshold and scaled by 100. -/
theorem c2_confidence_formula :
    (∀ (inds : List (String × IndicatorReading)) (pats : PatternReading) (t : TrendReading),
      inds ≠ [] → 0 ≤ pats.confidence → 0 ≤ t.strength → 0 ≤ t.consensus →
      0 ≤ (calculate_confidence_factors inds pats t).overall_confidence ∧
      (calculate_confidence_factors inds pats t).overall_confidence ≤ 1) ∧
    (∀ (a : Analysis) (d : Direction), calculate_signal_confidence a d = amended_confidence a d) := by
  constructor
  · intro inds pats t hne hpc hts htc
    simp only [calculate_confidence_factors]
    refine ⟨le_min ?_ (by norm_num), min_le_right _ _⟩
    have hpc2 : (0:ℚ) ≤ (if pats.pattern.isSome then pats.confidence else 0) := by
      split
      · exact hpc
      · exact le_rfl
    refine add_nonneg (add_nonneg (add_nonneg ?_ ?_) ?_) ?_
    · refine mul_nonneg ?_ (by norm_num)
      positivity
    · exact mul_nonneg hpc2 (by norm_num)
    · exact mul_nonneg hts (by norm_num)
    · exact mul_nonneg htc (by norm_num)
  · intro a d
    simp only [calculate_signal_confidence, amended_confidence]
    ring

/-- Witness for the amended C2 theorem: the bounds applied at a concrete
one-indicator analysis, and the formula equality at `c2_analysis`. -/
theorem c2_confidence_formula_witness :
    (0 ≤ (calculate_confidence_factors [("RSI", { signal := Direction.NEUTRAL, strength := 0 })]
        { pattern := none, ptype := Polarity.NEUTRAL, confidence := 1/2, signal := Direction.NEUTRAL }
        { signal := Direction.NEUTRAL, strength := 0, consensus := 0, agreement_count := 0 }).overall_confidence ∧
      (calculate_confidence_factors [("RSI", { signal := Direction.NEUTRAL, strength := 0 })]
        { pattern := none, ptype := Polarity.NEUTRAL, confidence := 1/2, signal := Direction.NEUTRAL }
        { signal := Direction.NEUTRAL, strength := 0, consensus := 0, agreement_count := 0 }).overall_confidence ≤ 1) ∧
    calculate_signal_confidence c2_analysis Direction.SELL = amended_confidence c2_analysis Direction.SELL :=
  ⟨c2_confidence_formula.1 _ _ _ (by simp) (by norm_num) le_rfl le_rfl,
   c2_confidence_formula.2 c2_analysis Direction.SELL⟩

/-- One entry of the validator's signal history
(`SignalValidator.record_signal` stores asset, direction, confidence and
the recording timestamp; timestamps are minutes on an abstract clock). -/
structure SignalRecord where
  asset : String
  direction : Direction
  confidence : ℚ
  timestamp : ℚ
deriving DecidableEq, Repr

/-- Validation rule set (`config/settings.py` VALIDATION_RULES). -/
structure ValidationRules where
  min_confidence : ℚ
  max_signals_per_asset : ℕ
  cooldown_minutes : ℚ
  required_indicators : ℕ
  trend_confirmation : Bool
deriving Repr

def VALIDATION_RULES : ValidationRules :=
  { min_confidence := 65, max_signals_per_asset := 5, cooldown_minutes := 10,
    required_indicators := 2, trend_confirmation := false }

/-- Validator state: recent signal history plus the per-asset accuracy
tracker (asset name mapped to total and correct outcome counts). -/
structure ValidatorState where
  signal_history : List SignalRecord
  accuracy_tracker : String → Option (ℕ × ℕ)

def check_minimum_confidence (rules : ValidationRules) (s : Signal) : Bool :=
  decide (s.confidence ≥ rules.min_confidence)

/-- Most recent history entry for an asset: the source iterates the history
in reverse order and stops at the first matching entry. -/
def find_last_for_asset (history : List SignalRecord) (asset : String) : Option SignalRecord :=
  history.reverse.find? (fun r => r.asset = asset)

/-- Cooldown gate (`SignalValidator._check_asset_cooldown`): fails exactly
when the most recent entry for the asset is younger than the cooldown. -/
def check_asset_cooldown (rules : ValidationRules) (history : List SignalRecord)
    (current_time : ℚ) (s : Signal) : Bool :=
  match find_last_for_asset history s.asset with
  | none => true
  | some r => decide (¬ (current_time - r.timestamp < rules.cooldown_minutes))

/-- Frequency gate (`SignalValidator._check_signal_frequency`): fewer than
the configured maximum of entries for this asset in the trailing hour. -/
def check_signal_frequency (rules : ValidationRules) (history : List SignalRecord)
    (current_time : ℚ) (s : Signal) : Bool :=
  decide ((history.filter (fun r => r.asset = s.asset ∧ r.timestamp > current_time - 60)).length
    < rules.max_signals_per_asset)

def check_indicator_agreement (rules : ValidationRules) (s : Signal) : Bool :=
  decide ((s.analysis.indicators.filter (fun p => p.2.signal = s.direction)).length
    ≥ rules.required_indicators)

def check_trend_confirmation (rules : ValidationRules) (s : Signal) : Bool :=
  if rules.trend_confirmation then
    decide (s.analysis.trend.signal = s.direction ∧ s.analysis.trend.strength > (1/2 : ℚ))
  else true

def check_signal_quality (s : Signal) : Bool :=
  let min_pattern_confidence : ℚ := if s.analysis.patterns.pattern.isSome then 2/5 else 0
  decide (s.analysis.sentiment.confidence ≥ (3/10 : ℚ) ∧
          s.analysis.patterns.confidence ≥ min_pattern_confidence ∧
          s.analysis.confidence_factors.overall_confidence ≥ (3/10 : ℚ))

/-- Historical-accuracy gate (`SignalValidator._check_historical_accuracy`):
no record or fewer than 10 outcomes always passes; otherwise the rolling
accuracy percentage must reach 70. -/
def check_historical_accuracy (tracker : String → Option (ℕ × ℕ)) (s : Signal) : Bool :=
  match tracker s.asset with
  | none => true
  | some (total, correct) =>
    if total < 10 then true
    else decide ((correct : ℚ) / (total : ℚ) * 100 ≥ 70)

/-- The sequential all-or-nothing gate chain of
`SignalValidator.validate_signal`, returning the verdict and the reason. -/
def validate_signal (st : ValidatorState) (current_time : ℚ) (s : Signal) : Bool × String :=
  if !check_minimum_confidence VALIDATION_RULES s then
    (false, "Signal confidence below minimum threshold")
  else if !check_asset_cooldown VALIDATION_RULES st.signal_history current_time s then
    (false, "Asset still in cooldown period")
  else if !check_signal_frequency VALIDATION_RULES st.signal_history current_time s then
    (false, "Too many signals for this asset recently")
  else if !check_indicator_agreement VALIDATION_RULES s then
    (false, "Insufficient indicator agreement")
  else if !check_trend_confirmation VALIDATION_RULES s then
    (false, "Trend confirmation failed")
  else if !check_signal_quality s then
    (false, "Signal quality below standards")
  else if !check_historical_accuracy st.accuracy_tracker s then
    (false, "Asset historical accuracy below threshold")
  else (true, "Signal validated successfully")

/-- History entry built by `SignalValidator.record_signal`. -/
def mk_signal_record (s : Signal) (now : ℚ) : SignalRecord :=
  { asset := s.asset, direction := s.direction, confidence := s.confidence, timestamp := now }

/-- `SignalValidator.record_signal`: append, then keep only the last 100
entries when the bound is exceeded. -/
def record_signal (history : List SignalRecord) (s : Signal) (now : ℚ) : List SignalRecord :=
  let h := history ++ [mk_signal_record s now]
  if 100 < h.length then h.drop (h.length - 100) else h

/-- `SignalValidator.cleanup_old_signals`: drop entries older than the
cutoff (`hours` converted to minutes). -/
def cleanup_old_signals (history : List SignalRecord) (now : ℚ) (hours : ℚ) : List SignalRecord :=
  history.filter (fun r => r.timestamp > now - hours * 60)

/-- `SignalValidator.update_accuracy`: create the per-asset record on first
use, then bump total and (on a win) correct. -/
def update_accuracy (tracker : String → Option (ℕ × ℕ)) (asset : String)
    (was_correct : Bool) : String → Option (ℕ × ℕ) :=
  fun x =>
    if x = asset then
      match tracker asset with
      | none => some (1, if was_correct then 1 else 0)
      | some (total, correct) => some (total + 1, correct + (if was_correct then 1 else 0))
    else tracker x

/-- The two operations that mutate the stored history. -/
inductive HistoryOp where
  | record (s : Signal) (now : ℚ)
  | cleanup (now : ℚ) (hours : ℚ)

def apply_history_op (history : List SignalRecord) : HistoryOp → List SignalRecord
  | HistoryOp.record s now => record_signal history s now
  | HistoryOp.cleanup now hours => cleanup_old_signals history now hours

/-- Replay a sequence of history operations from the empty history. -/
def apply_history_ops (ops : List HistoryOp) : List SignalRecord :=
  ops.foldl apply_history_op []

/-- The signal-generation pipeline step of `SignalGenerator.generate_signal`
from the point where the analysis is available: build a candidate, validate
it, and record it only when validation succeeded. -/
def generate_signal_step (st : ValidatorState) (asset category : String) (a : Analysis)
    (now : ℚ) : ValidatorState × Option Signal :=
  match create_signal_from_analysis asset category a with
  | none => (st, none)
  | some s =>
    if (validate_signal st now s).1 then
      ({ st with signal_history := record_signal st.signal_history s now }, some s)
    else (st, none)

/-- A fully NEUTRAL analysis used to build concrete validator inputs. -/
def blank_analysis : Analysis :=
  { indicators := [],
    patterns := { pattern := none, ptype := Polarity.NEUTRAL, confidence := 1/2,
                  signal := Direction.NEUTRAL },
    trend := { signal := Direction.NEUTRAL, strength := 0, consensus := 0, agreement_count := 0 },
    sentiment := { value := 0, category := Polarity.NEUTRAL, confidence := 1/2 },
    confidence_factors := { indicator_agreement := 0, pattern_confirmation := 0,
                            trend_strength := 0, signal_consensus := 0, overall_confidence := 0 },
    data_source := "simulated_data" }

/-- Validator state holding one accepted signal for EUR/USD at time 0. -/
def c3_state : ValidatorState :=
  { signal_history := [{ asset := "EUR/USD", direction := Direction.BUY, confidence := 80,
                         timestamp := 0 }],
    accuracy_tracker := fun _ => none }

/-- A low-confidence candidate for the same asset. -/
def c3_low_candidate : Signal :=
  { asset := "EUR/USD", category := "currency_pairs", direction := Direction.BUY,
    confidence := 10, analysis := blank_analysis }

/-- Claim C3 counterexample: the candidate is submitted 5 minutes after the
recorded EUR/USD signal (inside the 10-minute cooldown), yet because its
confidence is below the minimum the rejection reason is the confidence one,
not the cooldown one. -/
theorem c3_counterexample :
    find_last_for_asset c3_state.signal_history c3_low_candidate.asset
        = some { asset := "EUR/USD", direction := Direction.BUY, confidence := 80,
                 timestamp := 0 } ∧
    (5 : ℚ) - 0 < 10 ∧
    validate_signal c3_state 5 c3_low_candidate
        = (false, "Signal confidence below minimum threshold") := by
  refine ⟨rfl, by norm_num, ?_⟩
  simp [validate_signal, check_minimum_confidence, VALIDATION_RULES, c3_low_candidate]
  norm_num

/-- Claim C3 (amended): a candidate submitted while its asset is inside the
cooldown window (measured against the most recent matching history entry) is
always rejected; the stated reason is the cooldown one exactly when the
candidate already meets the minimum-confidence gate that runs first. -/
theorem c3_cooldown_rule (st : ValidatorState) (now : ℚ) (s : Signal) (r : SignalRecord) :
    find_last_for_asset st.signal_history s.asset = some r →
    now - r.timestamp < 10 →
    (validate_signal st now s).1 = false ∧
    ((65:ℚ) ≤ s.confidence → validate_signal st now s = (false, "Asset still in cooldown period")) := by
  intro hfind hlt
  have hcool : check_asset_cooldown VALIDATION_RULES st.signal_history now s = false := by
    unfold check_asset_cooldown
    rw [hfind]
    simp [VALIDATION_RULES, hlt]
  by_cases hc : (65:ℚ) ≤ s.confidence
  · have hmin : check_minimum_confidence VALIDATION_RULES s = true := by
      simp [check_minimum_confidence, VALIDATION_RULES, ge_iff_le, hc]
    exact ⟨by simp [validate_signal, hmin, hcool], fun _ => by simp [validate_signal, hmin, hcool]⟩
  · have hmin : check_minimum_confidence VALIDATION_RULES s = false := by
      simp [check_minimum_confidence, VALIDATION_RULES, ge_iff_le, hc]
    exact ⟨by simp [validate_signal, hmin], fun hc2 => absurd hc2 hc⟩

/-- A confident candidate for the asset still in cooldown. -/
def c3_witness_candidate : Signal :=
  { asset := "EUR/USD", category := "currency_pairs", direction := Direction.BUY,
    confidence := 80, analysis := blank_analysis }

/-- Witness for the amended C3 theorem: 5 minutes after the recorded
EUR/USD signal, an 80-confidence candidate is rejected with the cooldown
reason. -/
theorem c3_cooldown_rule_witness :
    validate_signal c3_state 5 c3_witness_candidate = (false, "Asset still in cooldown period") :=
  (c3_cooldown_rule c3_state 5 c3_witness_candidate
      { asset := "EUR/USD", direction := Direction.BUY, confidence := 80, timestamp := 0 }
      rfl (by norm_num)).2 (by norm_num [c3_witness_candidate])

/-- Claim C6: the historical-accuracy gate passes any asset with no record,
passes any asset with fewer than 10 recorded outcomes, and for an asset with
at least 10 outcomes passes exactly when the rolling accuracy percentage
reaches 70. -/
theorem c6_historical_accuracy_gate (tracker : String → Option (ℕ × ℕ)) (s : Signal) :
    (tracker s.asset = none → check_historical_accuracy tracker s = true) ∧
    (∀ total correct : ℕ, tracker s.asset = some (total, correct) → total < 10 →
      check_historical_accuracy tracker s = true) ∧
    (∀ total correct : ℕ, tracker s.asset = some (total, correct) → 10 ≤ total →
      (check_historical_accuracy tracker s = true ↔ (correct : ℚ) / (total : ℚ) * 100 ≥ 70)) := by
  refine ⟨?_, ?_, ?_⟩
  · intro h
    unfold check_historical_accuracy
    rw [h]
  · intro total correct h hlt
    unfold check_historical_accuracy
    rw [h]
    simp [hlt]
  · intro total correct h hge
    unfold check_historical_accuracy
    rw [h]
    simp [Nat.not_lt.mpr hge]

/-- Accuracy tracker with exactly 10 recorded outcomes, 8 of them correct. -/
def c6_tracker : String → Option (ℕ × ℕ) :=
  fun x => if x = "EUR/USD" then some (10, 8) else none

/-- Witness for C6: with 10 outcomes and 80 percent accuracy the gate
passes. -/
theorem c6_historical_accuracy_gate_witness :
    check_historical_accuracy c6_tracker c3_witness_candidate = true :=
  ((c6_historical_accuracy_gate c6_tracker c3_witness_candidate).2.2 10 8 rfl
    (by norm_num)).mpr (by norm_num)

theorem record_signal_length (h : List SignalRecord) (s : Signal) (now : ℚ) :
    (record_signal h s now).length = min (h.length + 1) 100 := by
  simp only [record_signal]
  split
  · next hgt =>
    simp only [List.length_drop, List.length_append, List.length_cons, List.length_nil] at *
    omega
  · next hle =>
    simp only [List.length_append, List.length_cons, List.length_nil] at *
    omega

theorem apply_history_ops_le_aux (ops : List HistoryOp) :
    ∀ h : List SignalRecord, h.length ≤ 100 → (ops.foldl apply_history_op h).length ≤ 100 := by
  induction ops with
  | nil => intro h hh; simpa using hh
  | cons op rest ih =>
    intro h hh
    refine ih _ ?_
    cases op with
    | record s now =>
      simp only [apply_history_op, record_signal_length]
      omega
    | cleanup now hours =>
      exact le_trans (List.length_filter_le _ _) hh

/-- Claim C9: replaying any sequence of record / cleanup operations from the
empty history keeps the stored history within the 100-entry bound, and each
record keeps a suffix (the most recent entries) of the appended history with
length capped at 100. -/
theorem c9_history_bound :
    (∀ ops : List HistoryOp, (apply_history_ops ops).length ≤ 100) ∧
    (∀ (h : List SignalRecord) (s : Signal) (now : ℚ),
      (record_signal h s now).length = min (h.length + 1) 100 ∧
      (record_signal h s now).IsSuffix (h ++ [mk_signal_record s now])) := by
  constructor
  · intro ops
    exact apply_history_ops_le_aux ops [] (by simp)
  · intro h s now
    refine ⟨record_signal_length h s now, ?_⟩
    simp only [record_signal]
    split
    · exact ⟨_, List.take_append_drop _ _⟩
    · exact List.suffix_refl _

/-- Claim C10: validation is read-only.  The generation step never touches
the accuracy tracker, leaves the whole validator state unchanged whenever no
signal is emitted (no candidate or validation rejected), and appends to the
history via record_signal exactly when validation succeeded. -/
theorem c10_validation_frame :
    (∀ (st : ValidatorState) (asset category : String) (a : Analysis) (now : ℚ),
      (generate_signal_step st asset category a now).1.accuracy_tracker = st.accuracy_tracker) ∧
    (∀ (st : ValidatorState) (asset category : String) (a : Analysis) (now : ℚ),
      (generate_signal_step st asset category a now).2 = none →
      (generate_signal_step st asset category a now).1 = st) ∧
    (∀ (st : ValidatorState) (asset category : String) (a : Analysis) (now : ℚ) (s : Signal),
      (generate_signal_step st asset category a now).2 = some s →
      (validate_signal st now s).1 = true ∧
      (generate_signal_step st asset category a now).1.signal_history
        = record_signal st.signal_history s now) := by
  refine ⟨?_, ?_, ?_⟩
  · intro st asset category a now
    unfold generate_signal_step
    rcases create_signal_from_analysis asset category a with _ | s
    · rfl
    · dsimp only
      split <;> rfl
  · intro st asset category a now
    unfold generate_signal_step
    rcases create_signal_from_analysis asset category a with _ | s
    · intro _
      rfl
    · dsimp only
      cases hv : (validate_signal st now s).1
      · intro _
        rfl
      · intro hnone
        simp at hnone
  · intro st asset category a now s
    unfold generate_signal_step
    rcases create_signal_from_analysis asset category a with _ | s0
    · intro hsome
      simp at hsome
    · dsimp only
      cases hv : (validate_signal st now s0).1
      · intro hsome
        simp at hsome
      · intro hsome
        simp at hsome
        subst hsome
        exact ⟨hv, rfl⟩

/-- Empty validator state. -/
def c10_state : ValidatorState := { signal_history := [], accuracy_tracker := fun _ => none }

/-- Witness for C10: a generation attempt that emits nothing leaves the
validator state untouched. -/
theorem c10_validation_frame_witness :
    (generate_signal_step c10_state "EUR/USD" "currency_pairs" blank_analysis 0).1 = c10_state :=
  c10_validation_frame.2.1 c10_state "EUR/USD" "currency_pairs" blank_analysis 0 rfl

/-- RSI reading derivation: thresholds 30/70 and strength
`abs(value-50)/50` (identical on the real-data and simulated paths). -/
def rsi_reading (value : ℚ) : IndicatorReading :=
  { signal := if value < 30 then Direction.BUY
      else if value > 70 then Direction.SELL else Direction.NEUTRAL,
    strength := |value - 50| / 50 }

/-- MACD reading derivation: binary signal, strength is the raw line gap
(no normalization or clamping in the source). -/
def macd_reading (macd_line signal_line : ℚ) : IndicatorReading :=
  { signal := if macd_line > signal_line then Direction.BUY else Direction.SELL,
    strength := |macd_line - signal_line| }

/-- Bollinger reading, real-data path: band crossing signals, strength
`abs(price-middle)/(upper-lower)`. -/
def bollinger_reading_real (upper middle lower price : ℚ) : IndicatorReading :=
  { signal := if price < lower then Direction.BUY
      else if price > upper then Direction.SELL else Direction.NEUTRAL,
    strength := |price - middle| / (upper - lower) }

/-- Bollinger reading, simulated path: signals at 0.8 of the band width,
strength `abs(price-middle)/band_width`. -/
def bollinger_reading_sim (middle band_width price : ℚ) : IndicatorReading :=
  { signal := if price < middle - band_width * (4/5 : ℚ) then Direction.BUY
      else if price > middle + band_width * (4/5 : ℚ) then Direction.SELL
      else Direction.NEUTRAL,
    strength := |price - middle| / band_width }

/-- Stochastic reading: thresholds 20/80, strength `abs(k-50)/50`
(identical thresholds on both paths). -/
def stochastic_reading (k_value : ℚ) : IndicatorReading :=
  { signal := if k_value < 20 then Direction.BUY
      else if k_value > 80 then Direction.SELL else Direction.NEUTRAL,
    strength := |k_value - 50| / 50 }

/-- Williams %R reading: thresholds -80 and -20, strength
`abs(value+50)/50`. -/
def williams_r_reading (value : ℚ) : IndicatorReading :=
  { signal := if value < -80 then Direction.BUY
      else if value > -20 then Direction.SELL else Direction.NEUTRAL,
    strength := |value + 50| / 50 }

/-- CCI reading, real-data path: thresholds -100/100, strength
`min(abs(value)/200, 1)` (explicitly clamped). -/
def cci_reading_real (value : ℚ) : IndicatorReading :=
  { signal := if value < -100 then Direction.BUY
      else if value > 100 then Direction.SELL else Direction.NEUTRAL,
    strength := min (|value| / 200) 1 }

/-- CCI reading, simulated path: same thresholds, strength `abs(value)/200`
without the clamp (the draw range keeps it within 0..1). -/
def cci_reading_sim (value : ℚ) : IndicatorReading :=
  { signal := if value < -100 then Direction.BUY
      else if value > 100 then Direction.SELL else Direction.NEUTRAL,
    strength := |value| / 200 }

/-- SMA crossover reading (real-data path only): binary signal, strength
`abs(sma20-sma50)/sma50` (unclamped). -/
def sma_reading (sma_20 sma_50 : ℚ) : IndicatorReading :=
  { signal := if sma_20 > sma_50 then Direction.BUY else Direction.SELL,
    strength := |sma_20 - sma_50| / sma_50 }

/-- Claim C4 counterexample: a MACD line gap of 2 (an ordinary magnitude
for high-priced assets) gives strength 2, outside the claimed 0..1 range. -/
theorem c4_counterexample :
    (macd_reading 2 0).strength = 2 ∧ ¬ ((macd_reading 2 0).strength ≤ 1) := by
  constructor
  · simp [macd_reading]
  · simp [macd_reading]

/-- Claim C4 (amended): the derived strength lies in 0..1 for RSI,
Stochastic, Williams %R and CCI (both paths) and for the simulated
Bollinger reading, given raw values in their defining ranges; the MACD, SMA
and real-path Bollinger strengths are raw unclamped quantities.  Signals
are BUY / SELL / NEUTRAL by construction, and all readings are pure
functions of the raw values. -/
theorem c4_reading_bounds :
    (∀ v : ℚ, 0 ≤ v → v ≤ 100 →
      0 ≤ (rsi_reading v).strength ∧ (rsi_reading v).strength ≤ 1) ∧
    (∀ k : ℚ, 0 ≤ k → k ≤ 100 →
      0 ≤ (stochastic_reading k).strength ∧ (stochastic_reading k).strength ≤ 1) ∧
    (∀ w : ℚ, -100 ≤ w → w ≤ 0 →
      0 ≤ (williams_r_reading w).strength ∧ (williams_r_reading w).strength ≤ 1) ∧
    (∀ c : ℚ, 0 ≤ (cci_reading_real c).strength ∧ (cci_reading_real c).strength ≤ 1) ∧
    (∀ c : ℚ, -200 ≤ c → c ≤ 200 →
      0 ≤ (cci_reading_sim c).strength ∧ (cci_reading_sim c).strength ≤ 1) ∧
    (∀ middle band_width price : ℚ, 0 < band_width →
      middle - band_width ≤ price → price ≤ middle + band_width →
      0 ≤ (bollinger_reading_sim middle band_width price).strength ∧
      (bollinger_reading_sim middle band_width price).strength ≤ 1) := by
  refine ⟨?_, ?_, ?_, ?_, ?_, ?_⟩
  · intro v h0 h100
    unfold rsi_reading
    refine ⟨by positivity, ?_⟩
    rw [div_le_one (by norm_num)]
    rw [abs_le]
    constructor <;> linarith
  · intro k h0 h100
    unfold stochastic_reading
    refine ⟨by positivity, ?_⟩
    rw [div_le_one (by norm_num)]
    rw [abs_le]
    constructor <;> linarith
  · intro w hlo hhi
    unfold williams_r_reading
    refine ⟨by positivity, ?_⟩
    rw [div_le_one (by norm_num)]
    rw [abs_le]
    constructor <;> linarith
  · intro c
    unfold cci_reading_real
    exact ⟨le_min (by positivity) (by norm_num), min_le_right _ _⟩
  · intro c hlo hhi
    unfold cci_reading_sim
    refine ⟨by positivity, ?_⟩
    rw [div_le_one (by norm_num)]
    rw [abs_le]
    constructor <;> linarith
  · intro middle band_width price hbw hlo hhi
    unfold bollinger_reading_sim
    refine ⟨by positivity, ?_⟩
    rw [div_le_one hbw]
    rw [abs_le]
    constructor <;> linarith

/-- Witness for the amended C4 theorem at concrete raw values. -/
theorem c4_reading_bounds_witness :
    (0 ≤ (rsi_reading 25).strength ∧ (rsi_reading 25).strength ≤ 1) ∧
    (0 ≤ (bollinger_reading_sim 150 10 145).strength ∧
      (bollinger_reading_sim 150 10 145).strength ≤ 1) :=
  ⟨c4_reading_bounds.1 25 (by norm_num) (by norm_num),
   c4_reading_bounds.2.2.2.2.2 150 10 145 (by norm_num) (by norm_num) (by norm_num)⟩

/-- One OHLCV bar of a fetched price series. -/
structure Bar where
  high : ℚ
  low : ℚ
  close : ℚ
  volume : ℚ
deriving DecidableEq, Repr

/-- Raw indicator values computed by the external ta library on a price
series; the library is an external collaborator, so its outputs are
injected as parameters. -/
structure RawIndicatorValues where
  rsi : ℚ
  macd_line : ℚ
  macd_signal_line : ℚ
  bb_upper : ℚ
  bb_middle : ℚ
  bb_lower : ℚ
  stoch_k : ℚ
  williams : ℚ
  cci : ℚ
  sma_20 : ℚ
  sma_50 : ℚ
deriving Repr

/-- Close of the last bar (Python `data['Close'].iloc[-1]`). -/
def last_close (data : List Bar) : ℚ :=
  (data.getLast?).elim 0 Bar.close

/-- `MarketDataFetcher.get_real_time_data` result shape: an empty fetch or
one with fewer than 10 bars yields no data. -/
def get_real_time_data (data : List Bar) : Option (List Bar) :=
  if data.length = 0 then none
  else if data.length < 10 then none
  else some data

/-- `MarketDataFetcher.calculate_technical_indicators`: on an empty or
shorter-than-20 series the result is the empty mapping (no partial
results); otherwise the seven readings are derived from the library's raw
values. -/
def calculate_technical_indicators (data : List Bar) (raw : RawIndicatorValues) :
    List (String × IndicatorReading) :=
  if data = [] ∨ data.length < 20 then []
  else
    [("RSI", rsi_reading raw.rsi),
     ("MACD", macd_reading raw.macd_line raw.macd_signal_line),
     ("BOLLINGER", bollinger_reading_real raw.bb_upper raw.bb_middle raw.bb_lower
        (last_close data)),
     ("STOCHASTIC", stochastic_reading raw.stoch_k),
     ("WILLIAMS_R", williams_r_reading raw.williams),
     ("CCI", cci_reading_real raw.cci),
     ("SMA", sma_reading raw.sma_20 raw.sma_50)]

/-- `MarketAnalyzer._analyze_trend`.  On an empty indicator mapping the
consensus expression divides `abs(signal_sum)` by `len(signals) = 0`, which
raises ZeroDivisionError in the source; this is modelled as an error
result. -/
def analyze_trend (indicators : List (String × IndicatorReading)) :
    Except String TrendReading :=
  let signals : List ℤ := indicators.map (fun p =>
    if p.2.signal = Direction.BUY then 1 else if p.2.signal = Direction.SELL then -1 else 0)
  let signal_sum : ℤ := signals.sum
  if indicators.length = 0 then Except.error "ZeroDivisionError"
  else
    let avg_strength : ℚ := (indicators.map (fun p => p.2.strength)).sum / (indicators.length : ℚ)
    let trend_signal : Direction :=
      if signal_sum > 1 then Direction.BUY
      else if signal_sum < -1 then Direction.SELL
      else Direction.NEUTRAL
    Except.ok
      { signal := trend_signal,
        strength := avg_strength,
        consensus := ((|signal_sum| : ℤ) : ℚ) / (indicators.length : ℚ),
        agreement_count := (signals.filter (fun x => x ≠ 0)).length }

/-- The flat NEUTRAL pattern record used when nothing is detected. -/
def neutral_pattern : PatternReading :=
  { pattern := none, ptype := Polarity.NEUTRAL, confidence := 1/2, signal := Direction.NEUTRAL }

/-- Python `max(patterns, key=confidence)` keeps the first maximal
element. -/
def strongest_pattern (ps : List PatternReading) : PatternReading :=
  match ps with
  | [] => neutral_pattern
  | p :: rest => rest.foldl (fun best q => if q.confidence > best.confidence then q else best) p

/-- `MarketDataFetcher.detect_chart_patterns`: trend-slope candidate over
the last 10 closes, support or resistance proximity candidate, optional
volume-confirmation boost, then the strongest candidate (or the NEUTRAL
default). -/
def detect_chart_patterns (data : List Bar) (has_volume : Bool) : PatternReading :=
  if data = [] ∨ data.length < 20 then neutral_pattern
  else
    let recent := data.drop (data.length - 10)
    let closes := recent.map Bar.close
    let trend_candidates : List PatternReading :=
      if 5 ≤ closes.length then
        let slope := (last_close data - closes.headD 0) / (closes.length : ℚ)
        if slope > 0 then
          [{ pattern := some "uptrend", ptype := Polarity.BULLISH, confidence := 4/5,
             signal := Direction.BUY }]
        else if slope < 0 then
          [{ pattern := some "downtrend", ptype := Polarity.BEARISH, confidence := 4/5,
             signal := Direction.SELL }]
        else []
      else []
    let current_price := last_close data
    let recent_high := ((recent.map Bar.high).maximum?).getD 0
    let recent_low := ((recent.map Bar.low).minimum?).getD 0
    let sr_candidates : List PatternReading :=
      if current_price ≤ recent_low * (101/100 : ℚ) then
        [{ pattern := some "support_bounce", ptype := Polarity.BULLISH, confidence := 3/4,
           signal := Direction.BUY }]
      else if current_price ≥ recent_high * (99/100 : ℚ) then
        [{ pattern := some "resistance_rejection", ptype := Polarity.BEARISH, confidence := 3/4,
           signal := Direction.SELL }]
      else []
    let candidates := trend_candidates ++ sr_candidates
    let tail20 := data.drop (data.length - 20)
    let avg_volume := (tail20.map Bar.volume).sum / (tail20.length : ℚ)
    let recent_volume := ((data.getLast?).elim 0 Bar.volume)
    let boosted :=
      if has_volume ∧ recent_volume > avg_volume * (3/2 : ℚ) then
        candidates.map (fun p => { p with confidence := min (p.confidence + 1/10) (19/20 : ℚ) })
      else candidates
    if boosted ≠ [] then strongest_pattern boosted else neutral_pattern

/-- `MarketDataFetcher.analyze_market_sentiment`: mean of the 5-bar price
momentum, the damped volume-trend score (when volume data exists) and the
signed indicator strengths, clipped to the -1..1 range. -/
def analyze_market_sentiment (data : List Bar) (has_volume : Bool)
    (indicators : List (String × IndicatorReading)) : SentimentReading :=
  if data = [] then { value := 0, category := Polarity.NEUTRAL, confidence := 1/2 }
  else
    let closes := data.map Bar.close
    let momentum_scores : List ℚ :=
      if 5 ≤ data.length then
        let c5 := closes.getD (closes.length - 5) 0
        [(last_close data - c5) / c5]
      else []
    let volume_scores : List ℚ :=
      if has_volume ∧ 10 ≤ data.length then
        let vols := data.map Bar.volume
        let recent5 := vols.drop (vols.length - 5)
        let older5 := (vols.drop (vols.length - 10)).take 5
        let recent_avg := recent5.sum / (recent5.length : ℚ)
        let older_avg := older5.sum / (older5.length : ℚ)
        if older_avg > 0 then [(recent_avg - older_avg) / older_avg * (1/2 : ℚ)] else []
      else []
    let indicator_scores : List ℚ := indicators.filterMap (fun p =>
      if p.2.signal = Direction.BUY then some (p.2.strength * (3/10 : ℚ))
      else if p.2.signal = Direction.SELL then some (-p.2.strength * (3/10 : ℚ))
      else none)
    let scores := momentum_scores ++ volume_scores ++ indicator_scores
    if scores = [] then { value := 0, category := Polarity.NEUTRAL, confidence := 1/2 }
    else
      let avg := scores.sum / (scores.length : ℚ)
      let v := max (-1 : ℚ) (min avg 1)
      let category := if v > (1/5 : ℚ) then Polarity.BULLISH
        else if v < -(1/5 : ℚ) then Polarity.BEARISH else Polarity.NEUTRAL
      { value := v, category := category, confidence := min (|v| + (1/2 : ℚ)) 1 }

/-- Random draw parameters of the simulated indicator generator
(`MarketAnalyzer._generate_technical_indicators`); the uniform draws are
injected. -/
structure SimDraws where
  rsi : ℚ
  macd_line : ℚ
  macd_signal_line : ℚ
  bb_middle : ℚ
  bb_width : ℚ
  bb_price : ℚ
  stoch_k : ℚ
  williams : ℚ
  cci : ℚ
deriving Repr

/-- Simulated indicator generation: six readings derived from the injected
draws with the same derivations as the real path except for Bollinger and
the CCI clamp. -/
def generate_technical_indicators_sim (d : SimDraws) : List (String × IndicatorReading) :=
  [("RSI", rsi_reading d.rsi),
   ("MACD", macd_reading d.macd_line d.macd_signal_line),
   ("BOLLINGER", bollinger_reading_sim d.bb_middle d.bb_width d.bb_price),
   ("STOCHASTIC", stochastic_reading d.stoch_k),
   ("WILLIAMS_R", williams_r_reading d.williams),
   ("CCI", cci_reading_sim d.cci)]

/-- Simulated pattern detection (`MarketAnalyzer._detect_patterns`) with
the random outcome injected: detection chance, polarity, catalog name and
confidence draw. -/
def detect_patterns_sim (detected bullish : Bool) (name : String)
    (confidence : ℚ) : PatternReading :=
  if detected then
    if bullish then
      { pattern := some name, ptype := Polarity.BULLISH, confidence := confidence,
        signal := Direction.BUY }
    else
      { pattern := some name, ptype := Polarity.BEARISH, confidence := confidence,
        signal := Direction.SELL }
  else neutral_pattern

/-- `MarketAnalyzer._calculate_market_sentiment` (simulated path): signed
indicator strengths plus the doubly weighted pattern sentiment, divided by
3. -/
def calculate_market_sentiment_sim (indicators : List (String × IndicatorReading))
    (patterns : PatternReading) : SentimentReading :=
  let indicator_sentiment : ℚ := (indicators.map (fun p =>
    if p.2.signal = Direction.BUY then p.2.strength
    else if p.2.signal = Direction.SELL then -p.2.strength else 0)).sum
  let pattern_sentiment : ℚ :=
    if patterns.ptype = Polarity.BULLISH then patterns.confidence
    else if patterns.ptype = Polarity.BEARISH then -patterns.confidence else 0
  let total := (indicator_sentiment + pattern_sentiment * 2) / 3
  let category := if total > (3/10 : ℚ) then Polarity.BULLISH
    else if total < -(3/10 : ℚ) then Polarity.BEARISH else Polarity.NEUTRAL
  { value := total, category := category, confidence := min |total| 1 }

/-- `MarketAnalyzer._analyze_asset_fallback`: the simulated analysis. -/
def analyze_asset_fallback (d : SimDraws) (pat_detected pat_bullish : Bool)
    (pat_name : String) (pat_confidence : ℚ) : Except String Analysis := do
  let indicators := generate_technical_indicators_sim d
  let pattern_analysis := detect_patterns_sim pat_detected pat_bullish pat_name pat_confidence
  let trend ← analyze_trend indicators
  let sentiment := calculate_market_sentiment_sim indicators pattern_analysis
  Except.ok
    { indicators := indicators, patterns := pattern_analysis, trend := trend,
      sentiment := sentiment,
      confidence_factors := calculate_confidence_factors indicators pattern_analysis trend,
      data_source := "simulated_data" }

/-- `MarketAnalyzer.analyze_asset`: the simulated fallback runs only when
the fetch produced no data (or an empty frame); otherwise the real-data
path runs, and a failure of the trend step propagates out (the source has
no try/except here and performs no fallback on an empty indicator
mapping). -/
def analyze_asset (fetched : Option (List Bar)) (has_volume : Bool)
    (raw : RawIndicatorValues) (d : SimDraws) (pat_detected pat_bullish : Bool)
    (pat_name : String) (pat_confidence : ℚ) : Except String Analysis :=
  match fetched with
  | none => analyze_asset_fallback d pat_detected pat_bullish pat_name pat_confidence
  | some data =>
    if data = [] then analyze_asset_fallback d pat_detected pat_bullish pat_name pat_confidence
    else do
      let indicators := calculate_technical_indicators data raw
      let pattern_analysis := detect_chart_patterns data has_volume
      let trend ← analyze_trend indicators
      let sentiment := analyze_market_sentiment data has_volume indicators
      Except.ok
        { indicators := indicators, patterns := pattern_analysis, trend := trend,
          sentiment := sentiment,
          confidence_factors := calculate_confidence_factors indicators pattern_analysis trend,
          data_source := "real_market_data" }

/-- Claim C5: on a fetched series of 10 to 19 bars the fetch gate passes,
indicator computation yields the empty mapping with no partial results, and
the analysis then fails with the ZeroDivisionError of the trend step
instead of falling back to the simulated path — the supposed fallback and
the no-escaping-exception guarantee do not hold in the code. -/
theorem c5_short_series (data : List Bar) (has_volume : Bool) (raw : RawIndicatorValues)
    (d : SimDraws) (pd pb : Bool) (pn : String) (pc : ℚ) :
    10 ≤ data.length → data.length < 20 →
    get_real_time_data data = some data ∧
    calculate_technical_indicators data raw = [] ∧
    analyze_asset (some data) has_volume raw d pd pb pn pc
      = Except.error "ZeroDivisionError" := by
  intro h10 h20
  have hne : data ≠ [] := by
    intro h
    rw [h] at h10
    simp at h10
  have hcalc : calculate_technical_indicators data raw = [] := by
    unfold calculate_technical_indicators
    rw [if_pos (Or.inr h20)]
  refine ⟨?_, hcalc, ?_⟩
  · unfold get_real_time_data
    rw [if_neg (by omega), if_neg (by omega)]
  · unfold analyze_asset
    dsimp only
    rw [if_neg hne, hcalc]
    rfl

/-- A 15-bar constant series. -/
def c5_bars : List Bar := List.replicate 15 { high := 1, low := 1, close := 1, volume := 1 }

def c5_raw : RawIndicatorValues :=
  { rsi := 50, macd_line := 0, macd_signal_line := 0, bb_upper := 2, bb_middle := 1,
    bb_lower := 0, stoch_k := 50, williams := -50, cci := 0, sma_20 := 1, sma_50 := 1 }

def c5_draws : SimDraws :=
  { rsi := 50, macd_line := 0, macd_signal_line := 0, bb_middle := 150, bb_width := 10,
    bb_price := 150, stoch_k := 50, williams := -50, cci := 0 }

/-- Witness for C5 at the concrete 15-bar series. -/
theorem c5_short_series_witness :
    get_real_time_data c5_bars = some c5_bars ∧
    calculate_technical_indicators c5_bars c5_raw = [] ∧
    analyze_asset (some c5_bars) false c5_raw c5_draws false false "x" 0
      = Except.error "ZeroDivisionError" :=
  c5_short_series c5_bars false c5_raw c5_draws false false "x" 0
    (by simp [c5_bars]) (by simp [c5_bars])

/-- Rotation state of the asset manager: per-asset last-used timestamps
(minutes) and usage counts, plus the round-robin category pointer. -/
structure RotationState where
  last_used : String → Option ℚ
  usage_count : String → ℕ
  rotation_index : ℕ

def CATEGORY_ROTATION : List String :=
  ["currency_pairs", "cryptocurrencies", "otc_currency_pairs", "otc_cryptocurrencies"]

/-- Recency filter of `AssetManager._select_asset_from_category`: an asset
passes when never used or when strictly more than 1800 seconds have
elapsed. -/
def filter_recent (available : List String) (last_used : String → Option ℚ)
    (now : ℚ) : List String :=
  available.filter (fun a =>
    match last_used a with
    | none => true
    | some t => decide ((now - t) * 60 > 1800))

/-- Candidate pool: the recency-filtered list, reset to the full category
list when the filter empties it. -/
def candidate_pool (available : List String) (last_used : String → Option ℚ)
    (now : ℚ) : List String :=
  let filtered := filter_recent available last_used now
  if filtered = [] then available else filtered

/-- Selection weight `max(1, 10 - usage_count)`. -/
def asset_weight (usage_count : String → ℕ) (a : String) : ℕ :=
  max 1 (10 - usage_count a)

/-- The index a weighted random choice draws from a uniform draw r in the
interval from 0 to the total weight: the first index whose cumulative
weight interval contains r (how random.choices samples). -/
def pick_index (weights : List ℕ) (r : ℚ) : ℕ :=
  match weights with
  | [] => 0
  | w :: ws => if r < (w : ℚ) then 0 else pick_index ws (r - (w : ℚ)) + 1

/-- Cumulative weight before index i. -/
def cumulative_weight (weights : List ℕ) (i : ℕ) : ℚ :=
  (((weights.take i).sum : ℕ) : ℚ)

/-- `AssetManager._select_asset_from_category` with the uniform draw
injected. -/
def select_asset_from_category (st : RotationState) (available : List String)
    (now : ℚ) (r : ℚ) : String :=
  let pool := candidate_pool available st.last_used now
  let weights := pool.map (asset_weight st.usage_count)
  pool.getD (pick_index weights r) ""

/-- `AssetManager.get_next_asset`: round-robin category advance, weighted
selection inside the category, then the last-used timestamp and usage-count
updates for the chosen asset. -/
def get_next_asset (st : RotationState) (assets : String → List String)
    (now : ℚ) (r : ℚ) : RotationState × String × String :=
  let category := CATEGORY_ROTATION.getD st.rotation_index ""
  let st1 : RotationState :=
    { st with rotation_index := (st.rotation_index + 1) % CATEGORY_ROTATION.length }
  let asset := select_asset_from_category st1 (assets category) now r
  ({ st1 with
      last_used := fun x => if x = asset then some now else st1.last_used x,
      usage_count := fun x => if x = asset then st1.usage_count x + 1 else st1.usage_count x },
   asset, category)

theorem cumulative_weight_zero (weights : List ℕ) : cumulative_weight weights 0 = 0 := by
  simp [cumulative_weight]

theorem cumulative_weight_cons_succ (w : ℕ) (ws : List ℕ) (i : ℕ) :
    cumulative_weight (w :: ws) (i + 1) = (w : ℚ) + cumulative_weight ws i := by
  simp [cumulative_weight]

theorem cumulative_weight_nonneg (weights : List ℕ) (i : ℕ) :
    0 ≤ cumulative_weight weights i :=
  Nat.cast_nonneg _

theorem pick_index_cons (w : ℕ) (ws : List ℕ) (r : ℚ) :
    pick_index (w :: ws) r
      = if r < (w : ℚ) then 0 else pick_index ws (r - (w : ℚ)) + 1 := rfl

theorem pick_index_lt_length (weights : List ℕ) :
    ∀ r : ℚ, 0 ≤ r → r < ((weights.sum : ℕ) : ℚ) → pick_index weights r < weights.length := by
  induction weights with
  | nil =>
    intro r h0 hr
    simp at hr
    exact absurd hr (not_lt.mpr h0)
  | cons w ws ih =>
    intro r h0 hr
    rw [List.sum_cons, Nat.cast_add] at hr
    rw [pick_index_cons]
    by_cases hlt : r < (w : ℚ)
    · rw [if_pos hlt]
      simp
    · rw [if_neg hlt]
      have hwr : (w : ℚ) ≤ r := not_lt.mp hlt
      have hsub : pick_index ws (r - (w : ℚ)) < ws.length := by
        apply ih
        · linarith
        · linarith
      simp only [List.length_cons]
      omega

theorem pick_index_iff_aux (weights : List ℕ) :
    ∀ (r : ℚ) (i : ℕ), 0 ≤ r → r < ((weights.sum : ℕ) : ℚ) →
      (pick_index weights r = i ↔
        cumulative_weight weights i ≤ r ∧ r < cumulative_weight weights (i + 1)) := by
  induction weights with
  | nil =>
    intro r i h0 hr
    simp at hr
    exact absurd hr (not_lt.mpr h0)
  | cons w ws ih =>
    intro r i h0 hr
    rw [List.sum_cons, Nat.cast_add] at hr
    rw [pick_index_cons]
    rcases i with _ | j
    · simp only [cumulative_weight_zero, cumulative_weight_cons_succ, add_zero]
      by_cases hlt : r < (w : ℚ)
      · rw [if_pos hlt]
        constructor
        · intro _
          exact ⟨h0, hlt⟩
        · intro _
          rfl
      · rw [if_neg hlt]
        have hwr : (w : ℚ) ≤ r := not_lt.mp hlt
        constructor
        · intro h
          exact absurd h (Nat.succ_ne_zero _)
        · intro hx
          exact absurd hx.2 hlt
    · simp only [cumulative_weight_cons_succ]
      by_cases hlt : r < (w : ℚ)
      · rw [if_pos hlt]
        constructor
        · intro h
          exact absurd h.symm (Nat.succ_ne_zero _)
        · intro hx
          exfalso
          have hc := cumulative_weight_nonneg ws j
          linarith [hx.1]
      · rw [if_neg hlt]
        have hwr : (w : ℚ) ≤ r := not_lt.mp hlt
        have hiff := ih (r - (w : ℚ)) j (by linarith) (by linarith)
        constructor
        · intro h
          have hj : pick_index ws (r - (w : ℚ)) = j := by omega
          have hx := hiff.mp hj
          exact ⟨by linarith [hx.1], by linarith [hx.2]⟩
        · intro hx
          have h1 : cumulative_weight ws j ≤ r - (w : ℚ) := by linarith [hx.1]
          have h2 : r - (w : ℚ) < cumulative_weight ws (j + 1) := by linarith [hx.2]
          have := hiff.mpr ⟨h1, h2⟩
          omega

theorem cumulative_weight_gap (weights : List ℕ) :
    ∀ i : ℕ, i < weights.length →
      cumulative_weight weights (i + 1) - cumulative_weight weights i
        = ((weights.getD i 0 : ℕ) : ℚ) := by
  induction weights with
  | nil =>
    intro i hi
    simp at hi
  | cons w ws ih =>
    intro i hi
    rcases i with _ | j
    · simp [cumulative_weight_cons_succ, cumulative_weight_zero]
    · rw [cumulative_weight_cons_succ, cumulative_weight_cons_succ]
      have := ih j (by simpa using Nat.lt_of_succ_lt_succ hi)
      simp only [List.getD_cons_succ]
      linarith

/-- Claim C7: the candidate pool is exactly the category members whose last
selection (if any) lies strictly more than 30 minutes in the past, reset to
the full list when the filter empties it; every candidate's weight
`max(1, 10-usage)` is at least 1; the weighted sampler hits index i exactly
when the uniform draw falls in the cumulative interval of length equal to
weight i (selection probability proportional to weight, never zero); and
the chosen asset's last-used time becomes now while its usage count is
incremented by one. -/
theorem c7_asset_selection :
    (∀ (available : List String) (lu : String → Option ℚ) (now : ℚ) (a : String),
      a ∈ filter_recent available lu now ↔
        a ∈ available ∧ ∀ t, lu a = some t → 30 < now - t) ∧
    (∀ (available : List String) (lu : String → Option ℚ) (now : ℚ),
      (filter_recent available lu now = [] → candidate_pool available lu now = available) ∧
      (filter_recent available lu now ≠ [] →
        candidate_pool available lu now = filter_recent available lu now)) ∧
    (∀ (uc : String → ℕ) (a : String), 1 ≤ asset_weight uc a) ∧
    (∀ (weights : List ℕ) (r : ℚ) (i : ℕ), 0 ≤ r → r < ((weights.sum : ℕ) : ℚ) →
      (pick_index weights r = i ↔
        cumulative_weight weights i ≤ r ∧ r < cumulative_weight weights (i + 1))) ∧
    (∀ (weights : List ℕ) (i : ℕ), i < weights.length →
      cumulative_weight weights (i + 1) - cumulative_weight weights i
        = ((weights.getD i 0 : ℕ) : ℚ)) ∧
    (∀ (weights : List ℕ) (r : ℚ), 0 ≤ r → r < ((weights.sum : ℕ) : ℚ) →
      pick_index weights r < weights.length) ∧
    (∀ (st : RotationState) (assets : String → List String) (now r : ℚ),
      (get_next_asset st assets now r).1.last_used ((get_next_asset st assets now r).2.1)
        = some now ∧
      (get_next_asset st assets now r).1.usage_count ((get_next_asset st assets now r).2.1)
        = st.usage_count ((get_next_asset st assets now r).2.1) + 1) := by
  refine ⟨?_, ?_, ?_, ?_, ?_, ?_, ?_⟩
  · intro available lu now a
    unfold filter_recent
    rw [List.mem_filter]
    constructor
    · intro ⟨hmem, hp⟩
      refine ⟨hmem, ?_⟩
      intro t ht
      rw [ht] at hp
      simp at hp
      linarith
    · intro ⟨hmem, hp⟩
      refine ⟨hmem, ?_⟩
      cases ht : lu a with
      | none => simp
      | some t =>
        have := hp t ht
        simp
        linarith
  · intro available lu now
    constructor
    · intro h
      unfold candidate_pool
      rw [if_pos h]
    · intro h
      unfold candidate_pool
      rw [if_neg h]
  · intro uc a
    exact le_max_left _ _
  · intro weights r i h0 hr
    exact pick_index_iff_aux weights r i h0 hr
  · intro weights i hi
    exact cumulative_weight_gap weights i hi
  · intro weights r h0 hr
    exact pick_index_lt_length weights r h0 hr
  · intro st assets now r
    unfold get_next_asset
    simp

/-- Witness for C7: with weights 10 and 9 the draw r = 10 falls in the
second cumulative interval, so index 1 is drawn. -/
theorem c7_asset_selection_witness : pick_index [10, 9] 10 = 1 :=
  (c7_asset_selection.2.2.2.1 [10, 9] 10 1 (by norm_num) (by norm_num [cumulative_weight])).mpr
    (by norm_num [cumulative_weight])

/-- Claim C8 counterexample: trend, sentiment and pattern all indicate BUY,
but with zero strength and confidences all three vote weights are 0, so the
fusion ladder ends in NEUTRAL rather than BUY. -/
theorem c8_counterexample :
    determine_signal_direction
        { signal := Direction.BUY, strength := 0, consensus := 0, agreement_count := 0 }
        { value := 0, category := Polarity.BULLISH, confidence := 0 }
        { pattern := some "hammer", ptype := Polarity.BULLISH, confidence := 0,
          signal := Direction.BUY }
      = Direction.NEUTRAL := by
  simp [determine_signal_direction, collect_votes]
  norm_num

theorem boost_step_mono (x y : ℚ) (h : x ≤ y) :
    (if x > (2/5 : ℚ) then min (x + (1/5 : ℚ)) 1 else x) * 100 ≤
    (if y > (2/5 : ℚ) then min (y + (1/5 : ℚ)) 1 else y) * 100 := by
  have hstep : (if x > (2/5 : ℚ) then min (x + (1/5 : ℚ)) 1 else x) ≤
      (if y > (2/5 : ℚ) then min (y + (1/5 : ℚ)) 1 else y) := by
    split_ifs with hx hy hy
    · exact min_le_min (by linarith) le_rfl
    · linarith
    · exact le_min (by linarith) (by linarith)
    · exact h
  have h100 : (0:ℚ) ≤ 100 := by norm_num
  exact mul_le_mul_of_nonneg_right hstep h100

theorem agree_indicator_le (x : Direction) :
    (if x = Direction.BUY then (1:ℕ) else 0) ≤ (if x ≠ Direction.NEUTRAL then 1 else 0) := by
  cases x <;> decide

theorem bonus_le_tenth (agreeing total : ℕ) (h : agreeing ≤ total) :
    (if 0 < total then ((agreeing : ℚ) / (total : ℚ) - (1/2 : ℚ)) * (1/5 : ℚ) else 0)
      ≤ 1/10 := by
  split
  · next hpos =>
    have htpos : (0:ℚ) < (total : ℚ) := by exact_mod_cast hpos
    have h1 : (agreeing : ℚ) / (total : ℚ) ≤ 1 := by
      rw [div_le_one htpos]
      exact_mod_cast h
    nlinarith
  · norm_num

/-- Claim C8 (amended): if trend, sentiment and pattern all indicate BUY and
the three weighted contributions are not all zero, fusion yields BUY; and an
all-three-agreeing analysis has confidence at least that of any analysis
with the same overall confidence factor — in particular one where only one
source indicates BUY. -/
theorem c8_agreement_rule :
    (∀ (t : TrendReading) (s : SentimentReading) (p : PatternReading),
      t.signal = Direction.BUY → s.category = Polarity.BULLISH → p.signal = Direction.BUY →
      0 < (2/5 : ℚ) * t.strength + (7/20 : ℚ) * s.confidence + (1/4 : ℚ) * p.confidence →
      determine_signal_direction t s p = Direction.BUY) ∧
    (∀ a b : Analysis,
      a.confidence_factors.overall_confidence = b.confidence_factors.overall_confidence →
      a.trend.signal = Direction.BUY → sentiment_signal a.sentiment = Direction.BUY →
      a.patterns.signal = Direction.BUY →
      calculate_signal_confidence b Direction.BUY ≤ calculate_signal_confidence a Direction.BUY) := by
  constructor
  · intro t s p ht hs hp hw
    simp only [determine_signal_direction, collect_votes_buy_sum, collect_votes_sell_sum,
      collect_votes_eq_nil_iff, spec_buy_weight, spec_sell_weight, ht, hs, hp]
    simp only [reduceCtorEq, if_true, if_false, ite_true, ite_false, and_false, false_and,
      add_zero, zero_add, if_pos rfl]
    split_ifs <;> first
      | rfl
      | (exfalso; push_neg at *; try simp_all; try linarith)
  · intro a b hbase ha1 ha2 ha3
    simp only [calculate_signal_confidence, ha1, ha2, ha3]
    apply boost_step_mono
    refine min_le_min ?_ le_rfl
    rw [hbase]
    apply add_le_add_left
    have hle : ((if b.trend.signal = Direction.BUY then (1:ℕ) else 0) +
        (if sentiment_signal b.sentiment = Direction.BUY then 1 else 0) +
        (if b.patterns.signal = Direction.BUY then 1 else 0))
        ≤ ((if b.trend.signal ≠ Direction.NEUTRAL then (1:ℕ) else 0) +
        (if sentiment_signal b.sentiment ≠ Direction.NEUTRAL then 1 else 0) +
        (if b.patterns.signal ≠ Direction.NEUTRAL then 1 else 0)) :=
      add_le_add (add_le_add (agree_indicator_le _) (agree_indicator_le _))
        (agree_indicator_le _)
    refine le_trans (bonus_le_tenth _ _ hle) ?_
    simp
    norm_num

/-- Witness for the amended C8 theorem: concrete all-three-BUY inputs give
direction BUY, and the all-agreeing analysis scores at least as high as a
single-source analysis with the same overall confidence factor. -/
theorem c8_agreement_rule_witness :
    determine_signal_direction
        { signal := Direction.BUY, strength := 1/2, consensus := 0, agreement_count := 0 }
        { value := 0, category := Polarity.BULLISH, confidence := 1/2 }
        { pattern := some "hammer", ptype := Polarity.BULLISH, confidence := 4/5,
          signal := Direction.BUY }
      = Direction.BUY ∧
    calculate_signal_confidence
        { blank_analysis with
            trend := { signal := Direction.NEUTRAL, strength := 0, consensus := 0,
                       agreement_count := 0 },
            sentiment := { value := 0, category := Polarity.BULLISH, confidence := 1/2 },
            confidence_factors := { indicator_agreement := 0, pattern_confirmation := 0,
                                    trend_strength := 0, signal_consensus := 0,
                                    overall_confidence := 1/2 } }
        Direction.BUY ≤
      calculate_signal_confidence
        { blank_analysis with
            trend := { signal := Direction.BUY, strength := 1/2, consensus := 0,
                       agreement_count := 0 },
            sentiment := { value := 0, category := Polarity.BULLISH, confidence := 1/2 },
            patterns := { pattern := some "hammer", ptype := Polarity.BULLISH,
                          confidence := 4/5, signal := Direction.BUY },
            confidence_factors := { indicator_agreement := 0, pattern_confirmation := 0,
                                    trend_strength := 0, signal_consensus := 0,
                                    overall_confidence := 1/2 } }
        Direction.BUY :=
  ⟨c8_agreement_rule.1 _ _ _ rfl rfl rfl (by norm_num),
   c8_agreement_rule.2 _ _ rfl rfl (by simp [sentiment_signal]) rfl⟩

end Victorex
